import Mathlib

/-!
# Shallow embedding of `bluesound/bluesound_api.py`

The source file implements a client for Bluesound audio players: it builds
HTTP command URLs from a base device address and normalizes XML responses
(parsed by `xmltodict` into nested dictionaries) for the read endpoints.

We embed the pure content of each method:

* the URL each method passes to `urllib.request.urlopen`, as a function of
  the constructor-supplied base URL and the method's parameters (Python
  truthiness of `if id:` / `elif url:` / `elif seek:` is modelled
  explicitly);
* the post-parse processing of each read endpoint, as a function from the
  dictionary produced by `xmltodict.parse` to `Except PyError` of the
  returned value, where `PyError` captures the exceptions the Python code
  can raise during that processing (`KeyError` from `d['k']` on a missing
  key, `TypeError` from indexing a non-dictionary or iterating `None`).

`xmltodict` values are strings, dictionaries (ordered, string-keyed),
lists of values, or `None`; dictionaries are embedded as association
lists preserving insertion order.
-/

/-- A value in the dictionary tree produced by `xmltodict.parse`:
a string, a nested dictionary (association list, insertion-ordered),
a list of values (repeated XML siblings), or Python `None`
(an empty element). -/
inductive XmlVal where
  | str (s : String)
  | node (fields : List (String × XmlVal))
  | list (items : List XmlVal)
  | null
deriving Repr

/-- The Python exceptions the embedded response processing can raise:
`KeyError` from `d['k']` lookup on a missing key, `TypeError` from
indexing a value that is not a dictionary (e.g. `'abc'['k']`) or from
iterating a non-iterable. -/
inductive PyError where
  | keyError (key : String)
  | typeError
deriving Repr, DecidableEq

/-- Python `d[key]` read on a dictionary embedded as an association
list: the value of the first (unique) matching key, `none` when absent. -/
def lookupField : List (String × XmlVal) → String → Option XmlVal
  | [], _ => none
  | (k, v) :: rest, key => if k = key then some v else lookupField rest key

/-- Python `d[key] = v` on a dictionary embedded as an association list:
replaces the value of an existing key in place, otherwise appends the
new key at the end (Python dictionaries keep insertion order). -/
def setField : List (String × XmlVal) → String → XmlVal → List (String × XmlVal)
  | [], key, v => [(key, v)]
  | (k, w) :: rest, key, v =>
      if k = key then (key, v) :: rest else (k, w) :: setField rest key v

/-- `xmltodict.parse(body)[root]`: unwrap the expected root tag of a
response; a missing root tag raises `KeyError(root)` in the source. -/
def unwrapRoot (root : String) (parsed : List (String × XmlVal)) :
    Except PyError XmlVal :=
  match lookupField parsed root with
  | some v => .ok v
  | none => .error (.keyError root)

/-- One iteration of the alias-copying loop body in `getPlaylists` /
`getQueue`: `entry['@text'] = entry[src]`. On a dictionary entry this
reads the alias field (raising `KeyError(src)` when absent, before any
assignment) and then sets `'@text'` to it; on any non-dictionary entry
the subscript raises `TypeError`. -/
def aliasEntry (src : String) (entry : XmlVal) : Except PyError XmlVal :=
  match entry with
  | .node fields =>
      match lookupField fields src with
      | some v => .ok (.node (setField fields "@text" v))
      | none => .error (.keyError src)
  | _ => .error .typeError

/-- The alias-copying loop of `getPlaylists` / `getQueue` run over a
list of entries, left to right, stopping at the first exception. -/
def aliasEntryList (src : String) : List XmlVal → Except PyError (List XmlVal)
  | [] => .ok []
  | e :: rest =>
      match aliasEntry src e with
      | .error err => .error err
      | .ok e' =>
          match aliasEntryList src rest with
          | .error err => .error err
          | .ok rest' => .ok (e' :: rest')

/-- `for entry in coll: entry['@text'] = entry[src]` where `coll` is the
value `xmltodict` stored under the repeated tag. When the tag had several
children `coll` is a list and each element is processed; when it had one
child `coll` is a dictionary, so Python iterates its KEYS (strings) and
the first loop body raises `TypeError` (a string cannot be subscripted by
`'...'`) unless the dictionary is empty; a bare string iterates its
characters with the same outcome; `None` is not iterable. -/
def iterEntries (src : String) (coll : XmlVal) : Except PyError XmlVal :=
  match coll with
  | .list items =>
      match aliasEntryList src items with
      | .error err => .error err
      | .ok items' => .ok (.list items')
  | .node fields => if fields.isEmpty then .ok (.node fields) else .error .typeError
  | .str s => if s.isEmpty then .ok (.str s) else .error .typeError
  | .null => .error .typeError

/-- The shared shape of `getPlaylists` and `getQueue` after the HTTP
fetch: unwrap `root`, subscript the repeated tag `repKey` (a
`TypeError` when the root value is not a dictionary, a `KeyError` when
the tag is absent), run the alias-copying loop over its value, and
return the root dictionary with the processed collection in place. -/
def normalizeListing (root repKey src : String)
    (parsed : List (String × XmlVal)) : Except PyError XmlVal :=
  match unwrapRoot root parsed with
  | .error err => .error err
  | .ok (.node fields) =>
      match lookupField fields repKey with
      | some coll =>
          match iterEntries src coll with
          | .error err => .error err
          | .ok coll' => .ok (.node (setField fields repKey coll'))
      | none => .error (.keyError repKey)
  | .ok _ => .error .typeError

/-- `getInputs` response processing: `xmltodict.parse(...)['radiotime']`,
returned as is. -/
def getInputsNormalize (parsed : List (String × XmlVal)) : Except PyError XmlVal :=
  unwrapRoot "radiotime" parsed

/-- `getRadioPresets` response processing:
`xmltodict.parse(...)['radiotime']`, returned as is. -/
def getRadioPresetsNormalize (parsed : List (String × XmlVal)) : Except PyError XmlVal :=
  unwrapRoot "radiotime" parsed

/-- `getPlaylists` response processing: unwrap `'playlists'`, then
`for playlist in playlists['name']: playlist['@text'] = playlist['#text']`,
then return `playlists`. -/
def getPlaylistsNormalize (parsed : List (String × XmlVal)) : Except PyError XmlVal :=
  normalizeListing "playlists" "name" "#text" parsed

/-- `getQueue` response processing: unwrap `'playlist'`, then
`for song in queue['song']: song['@text'] = song['title']`, then return
`queue`. -/
def getQueueNormalize (parsed : List (String × XmlVal)) : Except PyError XmlVal :=
  normalizeListing "playlist" "song" "title" parsed

/-- `getSyncStatus` response processing:
`xmltodict.parse(...)['SyncStatus']`. -/
def getSyncStatusNormalize (parsed : List (String × XmlVal)) : Except PyError XmlVal :=
  unwrapRoot "SyncStatus" parsed

/-- `getStatus` response processing: `xmltodict.parse(...)['status']`. -/
def getStatusNormalize (parsed : List (String × XmlVal)) : Except PyError XmlVal :=
  unwrapRoot "status" parsed

/-! ## Command URL construction -/

/-- Python truthiness of an optional integer argument defaulted to
`None`: `None` and `0` are falsy, every other integer is truthy. -/
def pyTruthyInt : Option Int → Bool
  | none => false
  | some n => n != 0

/-- Python truthiness of an optional string argument defaulted to
`None`: `None` and the empty string are falsy. -/
def pyTruthyStr : Option String → Bool
  | none => false
  | some s => !s.isEmpty

/-- Python `str(x)` for an optional integer (`str(None) = "None"`). -/
def pyStrInt : Option Int → String
  | none => "None"
  | some n => toString n

/-- Python `str(x)` for an optional string (`str(None) = "None"`). -/
def pyStrStr : Option String → String
  | none => "None"
  | some s => s

/-- The `RepeatOption` enumeration of the source with its string values. -/
inductive RepeatOption where
  | on
  | track
  | off
deriving Repr, DecidableEq

/-- `RepeatOption.value`: the device's numeric code as a string. -/
def RepeatOption.value : RepeatOption → String
  | .on => "0"
  | .track => "1"
  | .off => "2"

/-- The `BluesoundApi` object state: the single attribute set by the
constructor. -/
structure BluesoundApi where
  baseUrl : String
deriving Repr

/-- `BluesoundApi.__init__(ip_address)`:
`self.baseUrl = "http://" + ip_address + ":11000/"`. -/
def BluesoundApi.init (ip_address : String) : BluesoundApi :=
  ⟨"http://" ++ ip_address ++ ":11000/"⟩

namespace BluesoundApi

/-- `play(id=None, url=None, seek=None)`: start from `baseUrl + "Play"`,
then `if id: ... elif url: ... elif seek: ...` appends at most one query
parameter; the method issues the request unconditionally. Returns the URL
passed to `urlopen` paired with the unchanged object state. -/
def play (api : BluesoundApi) (id : Option Int := none)
    (url : Option String := none) (seek : Option Int := none) :
    String × BluesoundApi :=
  let p := api.baseUrl ++ "Play"
  let p :=
    if pyTruthyInt id then p ++ "?id=" ++ pyStrInt id
    else if pyTruthyStr url then p ++ "?url=" ++ pyStrStr url
    else if pyTruthyInt seek then p ++ "?seek=" ++ pyStrInt seek
    else p
  (p, api)

/-- `pause()`. -/
def pause (api : BluesoundApi) : String × BluesoundApi :=
  (api.baseUrl ++ "Pause", api)

/-- `skip()`. -/
def skip (api : BluesoundApi) : String × BluesoundApi :=
  (api.baseUrl ++ "Skip", api)

/-- `back()`. -/
def back (api : BluesoundApi) : String × BluesoundApi :=
  (api.baseUrl ++ "Back", api)

/-- `volume(level)`: `urlopen(baseUrl + "Volume?level=" + str(level))`;
no range check is performed on `level`. -/
def volume (api : BluesoundApi) (level : Int) : String × BluesoundApi :=
  (api.baseUrl ++ "Volume?level=" ++ toString level, api)

/-- `repeat(state)`: `urlopen(baseUrl + "Repeat?state=" + state.value)`. -/
def repeatCmd (api : BluesoundApi) (state : RepeatOption) : String × BluesoundApi :=
  (api.baseUrl ++ "Repeat?state=" ++ state.value, api)

/-- `shuffle(shuffleOn)`:
`urlopen(baseUrl + "Shuffle?state=" + str(int(shuffleOn)))`. -/
def shuffle (api : BluesoundApi) (shuffleOn : Bool) : String × BluesoundApi :=
  (api.baseUrl ++ "Shuffle?state=" ++ (if shuffleOn then "1" else "0"), api)

/-- The URL fetched by `getInputs`. -/
def getInputsUrl (api : BluesoundApi) : String × BluesoundApi :=
  (api.baseUrl ++ "RadioBrowse?service=Capture", api)

/-- The URL fetched by `getRadioPresets`. -/
def getRadioPresetsUrl (api : BluesoundApi) : String × BluesoundApi :=
  (api.baseUrl ++ "RadioPresets", api)

/-- The URL fetched by `getPlaylists`. -/
def getPlaylistsUrl (api : BluesoundApi) : String × BluesoundApi :=
  (api.baseUrl ++ "Playlists", api)

/-- The URL fetched by `getQueue(end=100, start=0)`:
`"{}Playlist?end={}&start={}".format(self.baseUrl, end, start)`.
The Python defaults (`end=100`, `start=0`, in that parameter order) are
carried over as Lean default arguments. No comparison of `end` and
`start` is performed. -/
def getQueueUrl (api : BluesoundApi) (endIdx : Int := 100)
    (startIdx : Int := 0) : String × BluesoundApi :=
  (api.baseUrl ++ "Playlist?end=" ++ toString endIdx ++ "&start=" ++ toString startIdx,
    api)

/-- `queuePlaylist(name)`:
`baseUrl + "Add?playlist=" + name + "&playnow=1&service=LocalMusic"`. -/
def queuePlaylist (api : BluesoundApi) (name : String) : String × BluesoundApi :=
  (api.baseUrl ++ "Add?playlist=" ++ name ++ "&playnow=1&service=LocalMusic", api)

/-- The URL fetched by `getSyncStatus`. -/
def getSyncStatusUrl (api : BluesoundApi) : String × BluesoundApi :=
  (api.baseUrl ++ "SyncStatus", api)

/-- The URL fetched by `getStatus`. -/
def getStatusUrl (api : BluesoundApi) : String × BluesoundApi :=
  (api.baseUrl ++ "Status", api)

end BluesoundApi

/-! ## Status Poller model

The repository contains no Status Poller: the source only documents that
`getStatus` / `getSyncStatus` "can be called every second". The poller is
therefore modelled from the spec. -/

/-- Modelled from the spec: one notification delivered to a Poll
Subscription — either a Status Snapshot carrying its sequence number and
the normalized record, or a failure notification carrying the error. -/
inductive PollNotification where
  | snapshot (seq : Nat) (record : XmlVal)
  | failure (err : PyError)
deriving Repr

/-- Modelled from the spec: the repository has no polling loop in the
source, so §4.3 of the spec is embedded directly. The loop consumes the
outcome of each tick's read in order: on success it increments the
sequence number and publishes a snapshot; on transport or parse failure
it publishes a failure notification without incrementing and without
stopping — every remaining tick is still processed. -/
def pollLoop (seq : Nat) : List (Except PyError XmlVal) → List PollNotification
  | [] => []
  | .ok r :: rest => .snapshot (seq + 1) r :: pollLoop (seq + 1) rest
  | .error e :: rest => .failure e :: pollLoop seq rest

/-! ## Concrete parsed responses used as test inputs -/

/-- A parsed `Playlists` response with two playlists (the repeated
`name` tag parses to a list). -/
def playlistsEx : List (String × XmlVal) :=
  [("playlists", XmlVal.node
      [("@service", .str "LocalMusic"),
       ("name", .list
          [.node [("@image", .str "a1"), ("#text", .str "Easy listening")],
           .node [("@image", .str "a2"), ("#text", .str "Party time")]])])]

/-- A parsed `Playlist` (queue) response with two songs. -/
def queueEx : List (String × XmlVal) :=
  [("playlist", XmlVal.node
      [("@id", .str "1528"),
       ("song", .list
          [.node [("title", .str "Song A"), ("@id", .str "0")],
           .node [("title", .str "Song B"), ("@id", .str "1")]])])]

/-- A parsed `RadioBrowse?service=Capture` response with two inputs. -/
def inputsEx : List (String × XmlVal) :=
  [("radiotime", XmlVal.node
      [("@service", .str "Capture"),
       ("item", .list
          [.node [("@text", .str "Spotify"), ("@URL", .str "Capture%3Aspotify%3Aplay")],
           .node [("@text", .str "Bluetooth"), ("@URL", .str "Capture%3Abluez%3Abluetooth")]])])]

/-- A parsed `Playlists` response holding exactly ONE playlist:
`xmltodict` stores a single `name` child as a dictionary, not a list. -/
def singlePlaylistsXml : List (String × XmlVal) :=
  [("playlists", XmlVal.node
      [("@service", .str "LocalMusic"),
       ("name", .node [("@image", .str "art"), ("#text", .str "Easy listening")])])]

/-- A parsed `Playlist` (queue) response holding exactly ONE song. -/
def singleQueueXml : List (String × XmlVal) :=
  [("playlist", XmlVal.node
      [("@length", .str "1"),
       ("song", .node [("title", .str "Always On My Mind"), ("@id", .str "0")])])]

/-- A parsed inputs response holding exactly ONE item. -/
def singleInputsXml : List (String × XmlVal) :=
  [("radiotime", XmlVal.node
      [("@service", .str "Capture"),
       ("item", .node [("@text", .str "Bluetooth"), ("@URL", .str "Capture%3Abluez%3Abluetooth")])])]

/-! ## Helper lemmas on the dictionary embedding -/

theorem lookupField_setField_self (fields : List (String × XmlVal))
    (key : String) (v : XmlVal) :
    lookupField (setField fields key v) key = some v := by
  induction fields with
  | nil => simp [setField, lookupField]
  | cons kv rest ih =>
      obtain ⟨k, w⟩ := kv
      by_cases hk : k = key <;> simp [setField, lookupField, hk, ih]

theorem lookupField_setField_ne (fields : List (String × XmlVal))
    (key key' : String) (v : XmlVal) (hne : key' ≠ key) :
    lookupField (setField fields key v) key' = lookupField fields key' := by
  have hne' : ¬(key = key') := fun h => hne h.symm
  induction fields with
  | nil => simp [setField, lookupField, hne']
  | cons kv rest ih =>
      obtain ⟨k, w⟩ := kv
      by_cases hk : k = key
      · subst hk
        simp [setField, lookupField, hne']
      · by_cases hk' : k = key' <;> simp [setField, lookupField, hk, hk', hne, ih]

/-- A successful run of the loop body yields the input dictionary with
`'@text'` set to the value found under `src`. -/
theorem aliasEntry_ok (src : String) (x e : XmlVal)
    (h : aliasEntry src x = .ok e) :
    ∃ fields v, e = .node (setField fields "@text" v) ∧
      lookupField fields src = some v := by
  cases x with
  | node fields =>
      simp only [aliasEntry] at h
      split at h
      · cases h
        exact ⟨fields, _, rfl, by assumption⟩
      · cases h
  | str s => simp [aliasEntry] at h
  | list items => simp [aliasEntry] at h
  | null => simp [aliasEntry] at h

/-- Every entry of a list that survives the alias-copying loop is a
dictionary whose `'@text'` field equals its `src` field. -/
theorem aliasEntryList_mem (src : String) (hsrc : src ≠ "@text")
    (xs ys : List XmlVal) (h : aliasEntryList src xs = .ok ys) :
    ∀ e ∈ ys, ∃ fields v, e = .node fields ∧
      lookupField fields src = some v ∧ lookupField fields "@text" = some v := by
  induction xs generalizing ys with
  | nil =>
      simp only [aliasEntryList] at h
      cases h
      intro e he
      simp at he
  | cons x rest ih =>
      simp only [aliasEntryList] at h
      cases hx : aliasEntry src x with
      | error err => rw [hx] at h; cases h
      | ok x' =>
          rw [hx] at h
          cases hrest : aliasEntryList src rest with
          | error err => rw [hrest] at h; cases h
          | ok rest' =>
              rw [hrest] at h
              cases h
              intro e he
              rcases List.mem_cons.mp he with he | he
              · subst he
                obtain ⟨fields, v, hx', hv⟩ := aliasEntry_ok src x _ hx
                refine ⟨setField fields "@text" v, v, hx', ?_, ?_⟩
                · rw [lookupField_setField_ne _ _ _ _ hsrc, hv]
                · exact lookupField_setField_self _ _ _
              · exact ih rest' hrest e he

/-- Every entry of a repeated collection that survives the alias loop is
a dictionary whose `'@text'` field equals its `src` field. -/
theorem iterEntries_mem (src : String) (hsrc : src ≠ "@text") (coll : XmlVal)
    (entries : List XmlVal) (h : iterEntries src coll = .ok (.list entries)) :
    ∀ e ∈ entries, ∃ fields v, e = .node fields ∧
      lookupField fields src = some v ∧ lookupField fields "@text" = some v := by
  cases coll with
  | list items =>
      simp only [iterEntries] at h
      cases hl : aliasEntryList src items with
      | error err => rw [hl] at h; cases h
      | ok items' =>
          rw [hl] at h
          cases h
          exact aliasEntryList_mem src hsrc items _ hl
  | node fields =>
      simp only [iterEntries] at h
      split at h
      · simp at h
      · cases h
  | str s =>
      simp only [iterEntries] at h
      split at h
      · simp at h
      · cases h
  | null => simp [iterEntries] at h

/-- Dissection of a successful `getPlaylists` / `getQueue` normalization:
when the processed collection under `repKey` is a list, each of its
entries carries a `'@text'` field equal to its `src` field. -/
theorem normalizeListing_mem (root repKey src : String) (hsrc : src ≠ "@text")
    (parsed fields : List (String × XmlVal)) (entries : List XmlVal)
    (h : normalizeListing root repKey src parsed = .ok (.node fields))
    (hk : lookupField fields repKey = some (.list entries)) :
    ∀ e ∈ entries, ∃ efs v, e = .node efs ∧
      lookupField efs src = some v ∧ lookupField efs "@text" = some v := by
  unfold normalizeListing at h
  split at h
  · cases h
  · split at h
    · split at h
      · cases h
      · simp only [Except.ok.injEq, XmlVal.node.injEq] at h
        subst h
        rw [lookupField_setField_self] at hk
        cases hk
        exact iterEntries_mem src hsrc _ _ (by assumption)
    · cases h
  · cases h

/-! ## Claims -/

/-- C1: every record produced by a listable read (getInputs,
getRadioPresets, getPlaylists, getQueue) exposes `'@text'` on each entry
of the repeated collection whenever the source entry carries the known
alias field (`'#text'` for playlist names, `'title'` for queue songs,
`'@text'` itself for inputs and radio presets), and for getPlaylists and
getQueue the synthesized `'@text'` equals the alias value: alias-copied
entries satisfy `'@text' = alias`, while inputs/presets responses are
returned verbatim, so any `'@text'` already present is exposed
unchanged. -/
theorem C1_text_field_invariant :
    (∀ parsed fields entries, getPlaylistsNormalize parsed = .ok (.node fields) →
        lookupField fields "name" = some (.list entries) →
        ∀ e ∈ entries, ∃ efs v, e = .node efs ∧
          lookupField efs "#text" = some v ∧ lookupField efs "@text" = some v) ∧
    (∀ parsed fields entries, getQueueNormalize parsed = .ok (.node fields) →
        lookupField fields "song" = some (.list entries) →
        ∀ e ∈ entries, ∃ efs v, e = .node efs ∧
          lookupField efs "title" = some v ∧ lookupField efs "@text" = some v) ∧
    (∀ parsed r, getInputsNormalize parsed = .ok r →
        lookupField parsed "radiotime" = some r) ∧
    (∀ parsed r, getRadioPresetsNormalize parsed = .ok r →
        lookupField parsed "radiotime" = some r) := by
  refine ⟨?_, ?_, ?_, ?_⟩
  · intro parsed fields entries h hk
    exact normalizeListing_mem "playlists" "name" "#text" (by decide)
      parsed fields entries h hk
  · intro parsed fields entries h hk
    exact normalizeListing_mem "playlist" "song" "title" (by decide)
      parsed fields entries h hk
  · intro parsed r h
    unfold getInputsNormalize unwrapRoot at h
    split at h
    · cases h; assumption
    · cases h
  · intro parsed r h
    unfold getRadioPresetsNormalize unwrapRoot at h
    split at h
    · cases h; assumption
    · cases h

/-- Witness for C1 at concrete two-element responses. -/
theorem C1_text_field_invariant_witness :
    (∃ efs v,
        XmlVal.node [("@image", XmlVal.str "a1"), ("#text", XmlVal.str "Easy listening"),
            ("@text", XmlVal.str "Easy listening")] = XmlVal.node efs ∧
        lookupField efs "#text" = some v ∧ lookupField efs "@text" = some v) ∧
    (∃ efs v,
        XmlVal.node [("title", XmlVal.str "Song A"), ("@id", XmlVal.str "0"),
            ("@text", XmlVal.str "Song A")] = XmlVal.node efs ∧
        lookupField efs "title" = some v ∧ lookupField efs "@text" = some v) ∧
    lookupField inputsEx "radiotime" = some (XmlVal.node
      [("@service", .str "Capture"),
       ("item", .list
          [.node [("@text", .str "Spotify"), ("@URL", .str "Capture%3Aspotify%3Aplay")],
           .node [("@text", .str "Bluetooth"), ("@URL", .str "Capture%3Abluez%3Abluetooth")]])]) :=
  ⟨C1_text_field_invariant.1 playlistsEx _ _ rfl rfl _ (List.mem_cons_self _ _),
   C1_text_field_invariant.2.1 queueEx _ _ rfl rfl _ (List.mem_cons_self _ _),
   C1_text_field_invariant.2.2.1 inputsEx _ rfl⟩

/-- C2 (code bug evidence): a repeated tag with exactly ONE child is NOT
coerced to a one-element sequence. `xmltodict` stores the single child
as a dictionary; `getPlaylists` / `getQueue` then iterate that
dictionary's keys and raise `TypeError` on the first string key, while
`getInputs` / `getRadioPresets` return the scalar dictionary under
`'item'` unchanged instead of a sequence. -/
theorem C2_singleton_not_coerced :
    getPlaylistsNormalize singlePlaylistsXml = .error .typeError ∧
    getQueueNormalize singleQueueXml = .error .typeError ∧
    getInputsNormalize singleInputsXml = .ok (.node
      [("@service", .str "Capture"),
       ("item", .node [("@text", .str "Bluetooth"),
          ("@URL", .str "Capture%3Abluez%3Abluetooth")])]) ∧
    getRadioPresetsNormalize singleInputsXml = .ok (.node
      [("@service", .str "Capture"),
       ("item", .node [("@text", .str "Bluetooth"),
          ("@URL", .str "Capture%3Abluez%3Abluetooth")])]) :=
  ⟨rfl, rfl, rfl, rfl⟩

/-- C3: every read operation whose parsed response lacks the endpoint's
expected root tag fails with an error naming the missing tag (the
source's `KeyError`, the condition the spec's `MalformedResponse`
taxonomy designates) — never a silent empty result. -/
theorem C3_missing_root_is_error (parsed : List (String × XmlVal)) :
    (lookupField parsed "radiotime" = none →
        getInputsNormalize parsed = .error (.keyError "radiotime") ∧
        getRadioPresetsNormalize parsed = .error (.keyError "radiotime")) ∧
    (lookupField parsed "playlists" = none →
        getPlaylistsNormalize parsed = .error (.keyError "playlists")) ∧
    (lookupField parsed "playlist" = none →
        getQueueNormalize parsed = .error (.keyError "playlist")) ∧
    (lookupField parsed "SyncStatus" = none →
        getSyncStatusNormalize parsed = .error (.keyError "SyncStatus")) ∧
    (lookupField parsed "status" = none →
        getStatusNormalize parsed = .error (.keyError "status")) := by
  refine ⟨fun h => ⟨?_, ?_⟩, fun h => ?_, fun h => ?_, fun h => ?_, fun h => ?_⟩
  all_goals
    simp [getInputsNormalize, getRadioPresetsNormalize, getPlaylistsNormalize,
      getQueueNormalize, getSyncStatusNormalize, getStatusNormalize,
      normalizeListing, unwrapRoot, h]

/-- Witness for C3 at the empty parsed dictionary. -/
theorem C3_missing_root_is_error_witness :
    getInputsNormalize [] = .error (.keyError "radiotime") ∧
    getRadioPresetsNormalize [] = .error (.keyError "radiotime") ∧
    getPlaylistsNormalize [] = .error (.keyError "playlists") ∧
    getQueueNormalize [] = .error (.keyError "playlist") ∧
    getSyncStatusNormalize [] = .error (.keyError "SyncStatus") ∧
    getStatusNormalize [] = .error (.keyError "status") :=
  ⟨((C3_missing_root_is_error []).1 rfl).1, ((C3_missing_root_is_error []).1 rfl).2,
   (C3_missing_root_is_error []).2.1 rfl, (C3_missing_root_is_error []).2.2.1 rfl,
   (C3_missing_root_is_error []).2.2.2.1 rfl, (C3_missing_root_is_error []).2.2.2.2 rfl⟩

/-- C4 counterexample: `play(id=5, url="x")` is not rejected — the
source has no multi-parameter check; it builds (and unconditionally
issues) the request carrying only the `id` parameter. -/
theorem C4_counterexample :
    ((BluesoundApi.init "192.168.1.8").play (some 5) (some "x") none).1
      = "http://192.168.1.8:11000/Play?id=5" := rfl

/-- C4 (amended): a `play` call supplying several of `id`, `url`, `seek`
is not rejected; the `if/elif` chain gives the first truthy parameter in
the order `id`, `url`, `seek` precedence and silently ignores the rest.
A call with no parameters builds the bare resume URL `<base>Play` with
no query string. -/
theorem C4_play_precedence (api : BluesoundApi) (id : Option Int)
    (url : Option String) (seek : Option Int) :
    (api.play).1 = api.baseUrl ++ "Play" ∧
    (pyTruthyInt id = true →
        (api.play id url seek).1 = api.baseUrl ++ "Play" ++ "?id=" ++ pyStrInt id) ∧
    (pyTruthyInt id = false → pyTruthyStr url = true →
        (api.play id url seek).1 = api.baseUrl ++ "Play" ++ "?url=" ++ pyStrStr url) ∧
    (pyTruthyInt id = false → pyTruthyStr url = false → pyTruthyInt seek = true →
        (api.play id url seek).1 = api.baseUrl ++ "Play" ++ "?seek=" ++ pyStrInt seek) ∧
    (pyTruthyInt id = false → pyTruthyStr url = false → pyTruthyInt seek = false →
        (api.play id url seek).1 = api.baseUrl ++ "Play") := by
  refine ⟨rfl, fun h1 => ?_, fun h1 h2 => ?_, fun h1 h2 h3 => ?_, fun h1 h2 h3 => ?_⟩
  all_goals simp [BluesoundApi.play, *]

/-- Witness for C4 at `play(id=5, url="x")`. -/
theorem C4_play_precedence_witness :
    pyTruthyInt (some (5 : Int)) = true ∧
    ((BluesoundApi.init "192.168.1.8").play (some 5) (some "x") none).1
      = (BluesoundApi.init "192.168.1.8").baseUrl ++ "Play" ++ "?id=" ++ pyStrInt (some 5) :=
  ⟨rfl, (C4_play_precedence (BluesoundApi.init "192.168.1.8")
      (some 5) (some "x") none).2.1 rfl⟩

/-- C5 counterexample: `volume(-1)` and `volume(101)` are not rejected —
the source forwards the level unchecked and builds the request. -/
theorem C5_counterexample :
    ((BluesoundApi.init "192.168.1.8").volume (-1)).1
      = "http://192.168.1.8:11000/Volume?level=-1" ∧
    ((BluesoundApi.init "192.168.1.8").volume 101).1
      = "http://192.168.1.8:11000/Volume?level=101" := ⟨rfl, rfl⟩

/-- C5 (amended): `volume(level)` performs no range check: for EVERY
integer level — in range (`0`, `100`) or out of range (`-1`, `101`)
alike — it builds `<base>Volume?level=<level>` and issues the request,
leaving the object state unchanged. -/
theorem C5_volume_unchecked (api : BluesoundApi) (level : Int) :
    (api.volume level).1 = api.baseUrl ++ "Volume?level=" ++ toString level ∧
    (api.volume level).2 = api := ⟨rfl, rfl⟩

/-- C6 counterexample: `getQueue(start=10, end=5)` with `end < start` is
not rejected — the source builds the request and sends it. -/
theorem C6_counterexample :
    ((BluesoundApi.init "192.168.1.8").getQueueUrl 5 10).1
      = "http://192.168.1.8:11000/Playlist?end=5&start=10" := rfl

/-- C6 (amended): `getQueue` never validates its bounds: for every pair
of integers, including `end < start`, it builds
`<base>Playlist?end=<end>&start=<start>` and issues the request. -/
theorem C6_getQueue_unchecked (api : BluesoundApi) (endIdx startIdx : Int) :
    (api.getQueueUrl endIdx startIdx).1
      = api.baseUrl ++ "Playlist?end=" ++ toString endIdx ++ "&start=" ++ toString startIdx ∧
    (api.getQueueUrl endIdx startIdx).2 = api := ⟨rfl, rfl⟩

/-- C7: `getQueue` takes `end` (default `100`) and `start` (default `0`)
and builds `<base>Playlist?end=<end>&start=<start>`; with no arguments it
requests `end=100, start=0`. -/
theorem C7_getQueue_defaults (api : BluesoundApi) (endIdx startIdx : Int) :
    (api.getQueueUrl endIdx startIdx).1
      = api.baseUrl ++ "Playlist?end=" ++ toString endIdx ++ "&start=" ++ toString startIdx ∧
    api.getQueueUrl = api.getQueueUrl 100 0 ∧
    (api.getQueueUrl).1 = api.baseUrl ++ "Playlist?end=100&start=0" := by
  refine ⟨rfl, rfl, ?_⟩
  show api.baseUrl ++ "Playlist?end=" ++ toString (100 : Int)
      ++ "&start=" ++ toString (0 : Int) = _
  simp only [String.append_assoc]
  rfl

/-- C8 (spec-modelled): a transport or parse failure on one tick neither
terminates the poll subscription nor skips later ticks: with reads
failing on tick 3 and succeeding on ticks 1, 2, 4 the loop delivers
exactly four notifications in order with sequence numbers 1, 2,
(failure, no increment), 3 — and in general one notification per tick,
whatever the outcomes. -/
theorem C8_poll_failure_tolerated (r1 r2 r4 : XmlVal) (e : PyError) :
    pollLoop 0 [.ok r1, .ok r2, .error e, .ok r4]
      = [.snapshot 1 r1, .snapshot 2 r2, .failure e, .snapshot 3 r4] ∧
    ∀ (seq : Nat) (ticks : List (Except PyError XmlVal)),
      (pollLoop seq ticks).length = ticks.length := by
  constructor
  · rfl
  · intro seq ticks
    induction ticks generalizing seq with
    | nil => rfl
    | cons t rest ih => cases t <;> simp [pollLoop, ih]

/-- C9: a zero-valued `id` or `seek` is falsy under the source's
`if id: / elif seek:` test, so `play(id=0)` and `play(seek=0)` build the
bare resume URL `<base>Play` and are indistinguishable from `play()`. -/
theorem C9_zero_args_dropped (api : BluesoundApi) :
    api.play (some 0) none none = api.play ∧
    api.play none none (some 0) = api.play ∧
    (api.play (some 0) none none).1 = api.baseUrl ++ "Play" :=
  ⟨rfl, rfl, rfl⟩

/-- C10: for a client constructed from an IP address, every request URL
built by every command and read operation extends the base
`http://<ip_address>:11000/` fixed at construction (the URL is the base
followed by some suffix), and no operation changes the object state
holding that base URL. -/
theorem C10_base_url_invariant (ip : String) (id : Option Int)
    (url : Option String) (seek : Option Int) (level : Int)
    (state : RepeatOption) (shuffleOn : Bool) (endIdx startIdx : Int)
    (name : String) :
    (BluesoundApi.init ip).baseUrl = "http://" ++ ip ++ ":11000/" ∧
    (∃ s, ((BluesoundApi.init ip).play id url seek).1 = "http://" ++ ip ++ ":11000/" ++ s) ∧
    ((BluesoundApi.init ip).play id url seek).2 = BluesoundApi.init ip ∧
    (∃ s, ((BluesoundApi.init ip).pause).1 = "http://" ++ ip ++ ":11000/" ++ s) ∧
    ((BluesoundApi.init ip).pause).2 = BluesoundApi.init ip ∧
    (∃ s, ((BluesoundApi.init ip).skip).1 = "http://" ++ ip ++ ":11000/" ++ s) ∧
    ((BluesoundApi.init ip).skip).2 = BluesoundApi.init ip ∧
    (∃ s, ((BluesoundApi.init ip).back).1 = "http://" ++ ip ++ ":11000/" ++ s) ∧
    ((BluesoundApi.init ip).back).2 = BluesoundApi.init ip ∧
    (∃ s, ((BluesoundApi.init ip).volume level).1 = "http://" ++ ip ++ ":11000/" ++ s) ∧
    ((BluesoundApi.init ip).volume level).2 = BluesoundApi.init ip ∧
    (∃ s, ((BluesoundApi.init ip).repeatCmd state).1 = "http://" ++ ip ++ ":11000/" ++ s) ∧
    ((BluesoundApi.init ip).repeatCmd state).2 = BluesoundApi.init ip ∧
    (∃ s, ((BluesoundApi.init ip).shuffle shuffleOn).1 = "http://" ++ ip ++ ":11000/" ++ s) ∧
    ((BluesoundApi.init ip).shuffle shuffleOn).2 = BluesoundApi.init ip ∧
    (∃ s, ((BluesoundApi.init ip).getInputsUrl).1 = "http://" ++ ip ++ ":11000/" ++ s) ∧
    ((BluesoundApi.init ip).getInputsUrl).2 = BluesoundApi.init ip ∧
    (∃ s, ((BluesoundApi.init ip).getRadioPresetsUrl).1 = "http://" ++ ip ++ ":11000/" ++ s) ∧
    ((BluesoundApi.init ip).getRadioPresetsUrl).2 = BluesoundApi.init ip ∧
    (∃ s, ((BluesoundApi.init ip).getPlaylistsUrl).1 = "http://" ++ ip ++ ":11000/" ++ s) ∧
    ((BluesoundApi.init ip).getPlaylistsUrl).2 = BluesoundApi.init ip ∧
    (∃ s, ((BluesoundApi.init ip).getQueueUrl endIdx startIdx).1
        = "http://" ++ ip ++ ":11000/" ++ s) ∧
    ((BluesoundApi.init ip).getQueueUrl endIdx startIdx).2 = BluesoundApi.init ip ∧
    (∃ s, ((BluesoundApi.init ip).queuePlaylist name).1 = "http://" ++ ip ++ ":11000/" ++ s) ∧
    ((BluesoundApi.init ip).queuePlaylist name).2 = BluesoundApi.init ip ∧
    (∃ s, ((BluesoundApi.init ip).getSyncStatusUrl).1 = "http://" ++ ip ++ ":11000/" ++ s) ∧
    ((BluesoundApi.init ip).getSyncStatusUrl).2 = BluesoundApi.init ip ∧
    (∃ s, ((BluesoundApi.init ip).getStatusUrl).1 = "http://" ++ ip ++ ":11000/" ++ s) ∧
    ((BluesoundApi.init ip).getStatusUrl).2 = BluesoundApi.init ip := by
  refine ⟨rfl, ?_, rfl, ⟨"Pause", rfl⟩, rfl, ⟨"Skip", rfl⟩, rfl, ⟨"Back", rfl⟩, rfl,
    ⟨"Volume?level=" ++ toString level, String.append_assoc _ _ _⟩, rfl,
    ⟨"Repeat?state=" ++ state.value, String.append_assoc _ _ _⟩, rfl,
    ⟨"Shuffle?state=" ++ (if shuffleOn then "1" else "0"), String.append_assoc _ _ _⟩, rfl,
    ⟨"RadioBrowse?service=Capture", rfl⟩, rfl, ⟨"RadioPresets", rfl⟩, rfl,
    ⟨"Playlists", rfl⟩, rfl,
    ⟨"Playlist?end=" ++ (toString endIdx ++ ("&start=" ++ toString startIdx)),
      by simp only [BluesoundApi.init, BluesoundApi.getQueueUrl, String.append_assoc]⟩, rfl,
    ⟨"Add?playlist=" ++ (name ++ "&playnow=1&service=LocalMusic"),
      by simp only [BluesoundApi.init, BluesoundApi.queuePlaylist, String.append_assoc]⟩, rfl,
    ⟨"SyncStatus", rfl⟩, rfl, ⟨"Status", rfl⟩, rfl⟩
  simp only [BluesoundApi.play]
  split
  · exact ⟨"Play" ++ ("?id=" ++ pyStrInt id), by simp only [BluesoundApi.init, String.append_assoc]⟩
  · split
    · exact ⟨"Play" ++ ("?url=" ++ pyStrStr url), by simp only [BluesoundApi.init, String.append_assoc]⟩
    · split
      · exact ⟨"Play" ++ ("?seek=" ++ pyStrInt seek), by simp only [BluesoundApi.init, String.append_assoc]⟩
      · exact ⟨"Play", rfl⟩
